import Mathlib

/-!
Verification of the geospatial data-loading and overlay pipeline of the
lecture notebook 03_GeospatialDataScience.ipynb. The notebook builds a
boundary table, filters it to the National Capital Region by an attribute
predicate, constructs point features from a tabular dataset with long/lat
columns, assigns a CRS label, and overlays the layers on a shared canvas.
-/

namespace GeoPipeline

/-- Scalar attribute values stored in a record or a feature attribute table:
strings, numbers (coordinates are modelled as exact rationals), the
not-a-number marker, or null. -/
inductive Scalar where
  | str (s : String)
  | num (q : ℚ)
  | nan
  | null
deriving DecidableEq

/-- A planar coordinate pair (x, y). -/
abbrev Coord := ℚ × ℚ

/-- Vector geometries: points, line strings, and polygons (lists of rings). -/
inductive Geometry where
  | point (x y : ℚ)
  | lineString (pts : List Coord)
  | polygon (rings : List (List Coord))
deriving DecidableEq

/-- A tabular record: an ordered association of column names to values. -/
abbrev Record := List (String × Scalar)

/-- A feature: one geometry together with its attribute record. -/
structure Feature where
  geometry : Geometry
  attrs : Record
deriving DecidableEq

/-- A feature collection: an ordered list of features sharing one CRS
identifier (none when no CRS has been assigned yet). -/
structure FeatureCollection where
  features : List Feature
  crs : Option String
deriving DecidableEq

/-- Look up a column value in a record by exact column name. -/
def getCol (r : Record) (c : String) : Option Scalar :=
  match r with
  | [] => none
  | (k, v) :: rest => if k = c then some v else getCol rest c

/-- Look up an attribute of a feature by exact attribute name. -/
def getAttr (f : Feature) (c : String) : Option Scalar :=
  getCol f.attrs c

/-- The Region Filter, as the boolean-mask row selection used by the notebook
cell building the variable ncr from gdf_reg: keep exactly the rows the
predicate selects, in their original order, keeping the source CRS. -/
def filterFC (F : FeatureCollection) (P : Feature → Bool) : FeatureCollection :=
  { features := F.features.filter P, crs := F.crs }

/-- The literal region name compared against in the notebook. -/
def ncrLiteral : String := "National Capital Region (NCR)"

/-- The notebook region predicate: the ADM1_EN attribute equals the literal
string "National Capital Region (NCR)". -/
def ncrPred (f : Feature) : Bool :=
  decide (getAttr f "ADM1_EN" = some (Scalar.str ncrLiteral))

/-- The notebook cell computing ncr: filter the region table by the
ADM1_EN predicate. -/
def ncr (gdf_reg : FeatureCollection) : FeatureCollection :=
  filterFC gdf_reg ncrPred

/-- C2: filtering returns exactly the features satisfying the predicate,
keeps the source CRS, preserves the original order (the output is a sublist
of the input), every output feature satisfies the predicate, every input
feature satisfying it appears, and for duplicate-free input each appears
exactly once. -/
theorem filterFC_spec (F : FeatureCollection) (P : Feature → Bool) :
    (filterFC F P).crs = F.crs ∧
    List.Sublist (filterFC F P).features F.features ∧
    (∀ f, f ∈ (filterFC F P).features → P f = true) ∧
    (∀ f, f ∈ F.features → P f = true → f ∈ (filterFC F P).features) ∧
    (F.features.Nodup → ∀ f, f ∈ F.features → P f = true →
      (filterFC F P).features.count f = 1) := by
  refine ⟨rfl, List.filter_sublist F.features, ?_, ?_, ?_⟩
  · intro f hf
    exact List.of_mem_filter hf
  · intro f hf hP
    exact List.mem_filter.mpr ⟨hf, hP⟩
  · intro hnd f hf hP
    have hmem : f ∈ F.features.filter P := List.mem_filter.mpr ⟨hf, hP⟩
    exact List.count_eq_one_of_mem (List.Nodup.filter P hnd) hmem

/-- C2 witness: the filter evaluated on a concrete two-feature collection. -/
theorem filterFC_spec_witness :
    (filterFC
        { features := [{ geometry := Geometry.point 1 2, attrs := [] },
                       { geometry := Geometry.point 3 4, attrs := [] }],
          crs := some "epsg:4326" }
        ncrPred).features.count { geometry := Geometry.point 1 2, attrs := [] }
      = if ncrPred { geometry := Geometry.point 1 2, attrs := [] } = true
        then 1 else 0 := by
  have h := filterFC_spec
    { features := [{ geometry := Geometry.point 1 2, attrs := [] },
                   { geometry := Geometry.point 3 4, attrs := [] }],
      crs := some "epsg:4326" } ncrPred
  have hnone : ncrPred { geometry := Geometry.point 1 2, attrs := [] } = false := by
    decide
  simp [hnone]
  decide

/-- C6: a predicate matched by no feature yields the empty feature collection
carrying the source CRS; the filter is a total function, so no error arises. -/
theorem filterFC_empty (F : FeatureCollection) (P : Feature → Bool)
    (h : ∀ f, f ∈ F.features → P f = false) :
    filterFC F P = { features := [], crs := F.crs } := by
  unfold filterFC
  have : F.features.filter P = [] := by
    apply List.filter_eq_nil_iff.mpr
    intro a ha
    simp [h a ha]
  rw [this]

/-- C6 witness: filtering a concrete one-feature collection with a predicate
matching nothing returns the empty collection. -/
theorem filterFC_empty_witness :
    filterFC
        { features := [{ geometry := Geometry.point 0 0, attrs := [] }],
          crs := some "epsg:4326" }
        (fun _ => false)
      = { features := [], crs := some "epsg:4326" } :=
  filterFC_empty _ _ (fun _ _ => rfl)

/-- C10: the region predicate is exact, case-sensitive, character-for-character
string equality on the ADM1_EN attribute; a missing attribute is not selected,
and values differing only in letter case or in surrounding whitespace are
excluded. -/
theorem ncrPred_exact :
    (∀ f v, getAttr f "ADM1_EN" = some (Scalar.str v) →
      (ncrPred f = true ↔ v.data = ncrLiteral.data)) ∧
    (∀ f, getAttr f "ADM1_EN" = none → ncrPred f = false) ∧
    ncrPred { geometry := Geometry.point 0 0,
              attrs := [("ADM1_EN", Scalar.str "national capital region (ncr)")] }
      = false ∧
    ncrPred { geometry := Geometry.point 0 0,
              attrs := [("ADM1_EN", Scalar.str (" " ++ ncrLiteral ++ " "))] }
      = false := by
  refine ⟨?_, ?_, by decide, by decide⟩
  · intro f v hv
    unfold ncrPred
    rw [hv]
    constructor
    · intro h
      have : some (Scalar.str v) = some (Scalar.str ncrLiteral) := of_decide_eq_true h
      have hs : v = ncrLiteral := by
        injection this with h2
        injection h2
      rw [hs]
    · intro h
      have hs : v = ncrLiteral := by
        apply String.ext
        exact h
      rw [hs]
      exact decide_eq_true rfl
  · intro f hf
    unfold ncrPred
    rw [hf]
    decide

/-- C10 witness: the predicate selects the exact literal on a concrete
feature. -/
theorem ncrPred_exact_witness :
    ncrPred { geometry := Geometry.point 0 0,
              attrs := [("ADM1_EN", Scalar.str ncrLiteral)] } = true :=
  (ncrPred_exact.1
      { geometry := Geometry.point 0 0,
        attrs := [("ADM1_EN", Scalar.str ncrLiteral)] }
      ncrLiteral (by decide)).mpr rfl

/-- Modelled from the spec: the error taxonomy of section 7. The notebook
itself has no error handling of its own; the errors below are the failure
modes the specification assigns to the Loader, Builder and Renderer. -/
inductive PipelineError where
  | fileNotFound
  | unsupportedFormat
  | missingColumn
  | invalidCoordinate
  | crsMismatch
deriving DecidableEq

/-- The numeric value held in a cell, when the cell holds a number. -/
def numOf : Option Scalar → ℚ
  | some (Scalar.num q) => q
  | _ => 0

/-- True when a cell is present and holds a plain number (not a string, not
null, not the not-a-number marker). -/
def isNumCell : Option Scalar → Bool
  | some (Scalar.num _) => true
  | _ => false

/-- True when a record has both designated coordinate columns present. -/
def hasCols (lonCol latCol : String) (r : Record) : Bool :=
  (getCol r lonCol).isSome && (getCol r latCol).isSome

/-- The point geometries built from the two designated coordinate columns of
a table, one per record, as in the notebook call
gpd.points_from_xy(sc.long, sc.lat). -/
def points_from_xy (lonCol latCol : String) (table : List Record) : List Geometry :=
  table.map fun r => Geometry.point (numOf (getCol r lonCol)) (numOf (getCol r latCol))

/-- Pairing a table with a list of geometries into a feature collection, one
feature per record carrying the whole record as attributes, with no CRS
assigned yet, as in the notebook call gpd.GeoDataFrame(sc, geometry=...). -/
def geoDataFrame (table : List Record) (geoms : List Geometry) : FeatureCollection :=
  { features := List.zipWith (fun r g => { geometry := g, attrs := r }) table geoms,
    crs := none }

/-- Assigning a CRS identifier to a collection, as in the notebook cell
setting sc_gdf.crs: only the label changes, the features are untouched. -/
def setCrs (F : FeatureCollection) (c : String) : FeatureCollection :=
  { F with crs := some c }

/-- The point feature a single record becomes. -/
def mkPointFeature (lonCol latCol : String) (r : Record) : Feature :=
  { geometry := Geometry.point (numOf (getCol r lonCol)) (numOf (getCol r latCol)),
    attrs := r }

/-- Modelled from the spec: the Point Dataset Builder of section 4.3. The
notebook constructs the points and assigns the CRS without any validation;
the MissingColumn and InvalidCoordinate checks are present only in the
specification and are modelled here ahead of the notebook construction. -/
def builder (table : List Record) (lonCol latCol : String) (c : String) :
    Except PipelineError FeatureCollection :=
  if table.all (hasCols lonCol latCol) then
    if table.all (fun r => isNumCell (getCol r lonCol) && isNumCell (getCol r latCol)) then
      Except.ok (setCrs (geoDataFrame table (points_from_xy lonCol latCol table)) c)
    else Except.error PipelineError.invalidCoordinate
  else Except.error PipelineError.missingColumn

/-- Modelled from the spec: a vector file on disk, as seen by the Boundary
Loader of section 4.1. The shapefiles read by the notebook are not part of
the repository, so a file is modelled by whether it exists, whether its
format parses, its declared CRS and its features. -/
structure VectorFile where
  present : Bool
  parseable : Bool
  declaredCrs : Option String
  features : List Feature
deriving DecidableEq

/-- Modelled from the spec: the Boundary Loader of section 4.1, the contract
behind the notebook call gpd.read_file. It fails with FileNotFound or
UnsupportedFormat, and otherwise returns the features of the file together
with the declared CRS of the file. -/
def loader (file : VectorFile) : Except PipelineError FeatureCollection :=
  if file.present = false then Except.error PipelineError.fileNotFound
  else if file.parseable = false then Except.error PipelineError.unsupportedFormat
  else Except.ok { features := file.features, crs := file.declaredCrs }

/-- The notebook variable sc_gdf before the CRS assignment:
gpd.GeoDataFrame(sc, geometry=gpd.points_from_xy(sc.long, sc.lat)). -/
def sc_gdf0 (sc : List Record) : FeatureCollection :=
  geoDataFrame sc (points_from_xy "long" "lat" sc)

/-- The notebook variable sc_gdf after the assignment
sc_gdf.crs = epsg 4326. -/
def sc_gdf (sc : List Record) : FeatureCollection :=
  setCrs (sc_gdf0 sc) "epsg:4326"

/-- Zipping a list with its own image under a map is a single map. -/
theorem zipWith_self_map {α β γ : Type} (f : α → γ → β) (g : α → γ) (l : List α) :
    List.zipWith f l (l.map g) = l.map (fun a => f a (g a)) := by
  induction l with
  | nil => rfl
  | cons a rest ih => simp [ih]

/-- The notebook construction makes exactly one point feature per record. -/
theorem geoDataFrame_points (table : List Record) (lonCol latCol : String) :
    (geoDataFrame table (points_from_xy lonCol latCol table)).features =
      table.map (mkPointFeature lonCol latCol) := by
  unfold geoDataFrame points_from_xy mkPointFeature
  simp only
  rw [zipWith_self_map]

/-- A numeric cell is present. -/
theorem isSome_of_isNumCell (o : Option Scalar) (h : isNumCell o = true) :
    o.isSome = true := by
  cases o with
  | none => simp [isNumCell] at h
  | some v => rfl

/-- C3: for a table whose designated coordinate columns all hold plain
numbers, the Builder succeeds with exactly one point feature per record,
tagged with the target CRS; each feature carries its whole record as
attributes unchanged, and a record whose columns hold the numbers lo and la
becomes exactly the point (lo, la). -/
theorem builder_valid (table : List Record) (lonCol latCol c : String)
    (h : ∀ r, r ∈ table → isNumCell (getCol r lonCol) = true ∧
      isNumCell (getCol r latCol) = true) :
    builder table lonCol latCol c =
      Except.ok { features := table.map (mkPointFeature lonCol latCol),
                  crs := some c } ∧
    (table.map (mkPointFeature lonCol latCol)).length = table.length ∧
    (∀ r lo la, getCol r lonCol = some (Scalar.num lo) →
      getCol r latCol = some (Scalar.num la) →
      mkPointFeature lonCol latCol r =
        { geometry := Geometry.point lo la, attrs := r }) := by
  have hall1 : table.all (hasCols lonCol latCol) = true := by
    rw [List.all_eq_true]
    intro r hr
    unfold hasCols
    rw [Bool.and_eq_true]
    exact ⟨isSome_of_isNumCell _ (h r hr).1, isSome_of_isNumCell _ (h r hr).2⟩
  have hall2 : table.all
      (fun r => isNumCell (getCol r lonCol) && isNumCell (getCol r latCol)) = true := by
    rw [List.all_eq_true]
    intro r hr
    rw [Bool.and_eq_true]
    exact ⟨(h r hr).1, (h r hr).2⟩
  refine ⟨?_, List.length_map table _, ?_⟩
  · unfold builder
    rw [hall1, hall2]
    simp only [if_true]
    congr 1
    unfold setCrs
    congr 1
    exact geoDataFrame_points table lonCol latCol
  · intro r lo la h1 h2
    unfold mkPointFeature
    rw [h1, h2]
    rfl

/-- C3 witness: the Builder evaluated on the one-row table of the spec
scenario (with rational coordinates 3 and 4 and a name attribute). -/
theorem builder_valid_witness :
    builder [[("long", Scalar.num 3), ("lat", Scalar.num 4),
              ("name", Scalar.str "Mall A")]] "long" "lat" "epsg:4326"
      = Except.ok
          { features :=
              [{ geometry := Geometry.point 3 4,
                 attrs := [("long", Scalar.num 3), ("lat", Scalar.num 4),
                           ("name", Scalar.str "Mall A")] }],
            crs := some "epsg:4326" } := by
  have h := builder_valid
    [[("long", Scalar.num 3), ("lat", Scalar.num 4), ("name", Scalar.str "Mall A")]]
    "long" "lat" "epsg:4326" (by decide)
  rw [h.1]
  rfl

/-- C4: the Builder fails with MissingColumn whenever a designated column is
absent from some record, fails with InvalidCoordinate whenever all columns
are present but some designated value is not a plain number (a string, null,
or the not-a-number marker), and produces no feature collection in either
case. -/
theorem builder_errors (table : List Record) (lonCol latCol c : String) :
    ((∃ r, r ∈ table ∧ (getCol r lonCol = none ∨ getCol r latCol = none)) →
      builder table lonCol latCol c = Except.error PipelineError.missingColumn) ∧
    ((∀ r, r ∈ table → hasCols lonCol latCol r = true) →
      (∃ r, r ∈ table ∧ (isNumCell (getCol r lonCol) = false ∨
        isNumCell (getCol r latCol) = false)) →
      builder table lonCol latCol c = Except.error PipelineError.invalidCoordinate) ∧
    ((∃ r, r ∈ table ∧ (getCol r lonCol = none ∨ getCol r latCol = none ∨
        isNumCell (getCol r lonCol) = false ∨ isNumCell (getCol r latCol) = false)) →
      ∀ F, builder table lonCol latCol c ≠ Except.ok F) := by
  have hnum_false : ∀ (r : Record), r ∈ table →
      isNumCell (getCol r lonCol) = false ∨ isNumCell (getCol r latCol) = false →
      table.all (fun s => isNumCell (getCol s lonCol) && isNumCell (getCol s latCol))
        = false := by
    intro r hr hbad
    apply Bool.eq_false_iff.mpr
    intro hall
    rw [List.all_eq_true] at hall
    have hand := hall r hr
    rw [Bool.and_eq_true] at hand
    rcases hbad with hb | hb
    · rw [hand.1] at hb
      simp at hb
    · rw [hand.2] at hb
      simp at hb
  have hcols_false : ∀ (r : Record), r ∈ table →
      getCol r lonCol = none ∨ getCol r latCol = none →
      table.all (hasCols lonCol latCol) = false := by
    intro r hr hbad
    apply Bool.eq_false_iff.mpr
    intro hall
    rw [List.all_eq_true] at hall
    have hand := hall r hr
    unfold hasCols at hand
    rw [Bool.and_eq_true] at hand
    rcases hbad with hb | hb
    · rw [hb] at hand
      simp at hand
    · rw [hb] at hand
      simp at hand
  refine ⟨?_, ?_, ?_⟩
  · rintro ⟨r, hr, hbad⟩
    have := hcols_false r hr hbad
    simp [builder, this]
  · intro hall hbad
    rcases hbad with ⟨r, hr, hb⟩
    have h1 : table.all (hasCols lonCol latCol) = true := by
      rw [List.all_eq_true]
      exact hall
    have h2 := hnum_false r hr hb
    simp [builder, h1, h2]
  · rintro ⟨r, hr, hbad⟩ F
    by_cases hc : table.all (hasCols lonCol latCol) = true
    · have hnb : isNumCell (getCol r lonCol) = false ∨
          isNumCell (getCol r latCol) = false := by
        rcases hbad with hb | hb | hb | hb
        · left
          rw [hb]
          rfl
        · right
          rw [hb]
          rfl
        · left
          exact hb
        · right
          exact hb
      have h2 := hnum_false r hr hnb
      simp [builder, hc, h2]
    · have h1 : table.all (hasCols lonCol latCol) = false :=
        Bool.eq_false_iff.mpr hc
      simp [builder, h1]

/-- C4 witness: a one-row table missing the designated longitude column makes
the Builder fail with MissingColumn and produce no collection. -/
theorem builder_errors_witness :
    builder [[("lat", Scalar.num 1)]] "long" "lat" "epsg:4326"
      = Except.error PipelineError.missingColumn :=
  (builder_errors [[("lat", Scalar.num 1)]] "long" "lat" "epsg:4326").1
    ⟨[("lat", Scalar.num 1)], by decide, Or.inl (by decide)⟩

/-- C9: the CRS assignment on sc_gdf only relabels the collection: the
features are exactly those built before the assignment, one point feature per
record of the source table, and a record whose long and lat columns hold the
numbers lo and la keeps the exact point (lo, la) after the assignment: no
reprojection or transformation is applied. -/
theorem sc_gdf_crs_relabel (sc : List Record) :
    (sc_gdf sc).features = (sc_gdf0 sc).features ∧
    (sc_gdf sc).crs = some "epsg:4326" ∧
    (sc_gdf sc).features = sc.map (mkPointFeature "long" "lat") ∧
    (∀ r lo la, getCol r "long" = some (Scalar.num lo) →
      getCol r "lat" = some (Scalar.num la) →
      (mkPointFeature "long" "lat" r).geometry = Geometry.point lo la) := by
  refine ⟨rfl, rfl, ?_, ?_⟩
  · exact geoDataFrame_points sc "long" "lat"
  · intro r lo la h1 h2
    unfold mkPointFeature
    rw [h1, h2]
    rfl

/-- C9 witness: the point feature of a concrete record keeps the exact
coordinates taken from the table. -/
theorem sc_gdf_crs_relabel_witness :
    (mkPointFeature "long" "lat"
        [("long", Scalar.num 5), ("lat", Scalar.num 6)]).geometry
      = Geometry.point 5 6 :=
  (sc_gdf_crs_relabel []).2.2.2
    [("long", Scalar.num 5), ("lat", Scalar.num 6)] 5 6 (by decide) (by decide)

/-- C7: on a valid boundary file (present, parseable, with a declared CRS)
the Loader succeeds, and the CRS of the returned collection is non-null and
equal to the CRS declared in the file. -/
theorem loader_valid (file : VectorFile) (c : String)
    (hp : file.present = true) (hq : file.parseable = true)
    (hc : file.declaredCrs = some c) :
    loader file = Except.ok { features := file.features, crs := file.declaredCrs } ∧
    (∃ F, loader file = Except.ok F ∧ F.crs ≠ none ∧ F.crs = file.declaredCrs) := by
  have h1 : loader file =
      Except.ok { features := file.features, crs := file.declaredCrs } := by
    simp [loader, hp, hq]
  refine ⟨h1, ⟨_, h1, ?_, rfl⟩⟩
  rw [hc]
  simp

/-- C7 witness: the Loader on a concrete valid file. -/
theorem loader_valid_witness :
    loader { present := true, parseable := true,
             declaredCrs := some "epsg:4326", features := [] }
      = Except.ok { features := [], crs := some "epsg:4326" } :=
  (loader_valid
      { present := true, parseable := true,
        declaredCrs := some "epsg:4326", features := [] }
      "epsg:4326" rfl rfl rfl).1

/-- C5: composing the Loader on a valid boundary file with the region filter:
when exactly one feature of the file satisfies the ADM1_EN predicate and the
matching feature carries the polygon poly, the filter output is exactly one
feature whose geometry is poly. -/
theorem load_filter_ncr (file : VectorFile) (poly : Geometry)
    (hp : file.present = true) (hq : file.parseable = true)
    (hone : file.features.countP ncrPred = 1)
    (hgeom : ∀ g, g ∈ file.features → ncrPred g = true → g.geometry = poly) :
    ∃ F f, loader file = Except.ok F ∧
      (filterFC F ncrPred).features = [f] ∧ f.geometry = poly ∧
      f ∈ F.features ∧ ncrPred f = true := by
  have hload : loader file =
      Except.ok { features := file.features, crs := file.declaredCrs } := by
    simp [loader, hp, hq]
  have hlen : (file.features.filter ncrPred).length = 1 := by
    rw [← List.countP_eq_length_filter]
    exact hone
  obtain ⟨f, hf⟩ := List.length_eq_one.mp hlen
  have hmem : f ∈ file.features.filter ncrPred := by
    rw [hf]
    exact List.mem_singleton_self f
  have hfmem := List.mem_filter.mp hmem
  exact ⟨_, f, hload, hf, hgeom f hfmem.1 hfmem.2, hfmem.1, hfmem.2⟩

/-- C5 witness: a concrete file holding one NCR polygon among two regions. -/
theorem load_filter_ncr_witness :
    ∃ F f,
      loader { present := true, parseable := true, declaredCrs := some "epsg:4326",
               features :=
                 [{ geometry := Geometry.polygon [[(0, 0), (1, 0), (1, 1), (0, 0)]],
                    attrs := [("ADM1_EN", Scalar.str "National Capital Region (NCR)")] },
                  { geometry := Geometry.polygon [[(2, 2), (3, 2), (3, 3), (2, 2)]],
                    attrs := [("ADM1_EN", Scalar.str "Region I (Ilocos Region)")] }] }
        = Except.ok F ∧
      (filterFC F ncrPred).features = [f] ∧
      f.geometry = Geometry.polygon [[(0, 0), (1, 0), (1, 1), (0, 0)]] ∧
      f ∈ F.features ∧ ncrPred f = true :=
  load_filter_ncr
    { present := true, parseable := true, declaredCrs := some "epsg:4326",
      features :=
        [{ geometry := Geometry.polygon [[(0, 0), (1, 0), (1, 1), (0, 0)]],
           attrs := [("ADM1_EN", Scalar.str "National Capital Region (NCR)")] },
         { geometry := Geometry.polygon [[(2, 2), (3, 2), (3, 3), (2, 2)]],
           attrs := [("ADM1_EN", Scalar.str "Region I (Ilocos Region)")] }] }
    (Geometry.polygon [[(0, 0), (1, 0), (1, 1), (0, 0)]])
    rfl rfl (by decide) (by decide)

/-- A layer style: fill or marker color and edge color, as passed to the
notebook plot calls. -/
structure Style where
  color : String
  edgecolor : String
deriving DecidableEq

/-- A rendering layer: a feature collection paired with a style. -/
structure Layer where
  fc : FeatureCollection
  style : Style
deriving DecidableEq

/-- A drawing command of the produced image: polygons are filled and edged,
line strings are stroked, points get markers, all at the exact input
coordinates. -/
inductive DrawCmd where
  | polyCmd (rings : List (List Coord)) (fill : String) (edge : String)
  | pathCmd (pts : List Coord) (color : String)
  | markerCmd (x y : ℚ) (color : String)
deriving DecidableEq

/-- Drawing a single geometry with a style. -/
def drawGeometry (st : Style) : Geometry → DrawCmd
  | Geometry.polygon rings => DrawCmd.polyCmd rings st.color st.edgecolor
  | Geometry.lineString pts => DrawCmd.pathCmd pts st.color
  | Geometry.point x y => DrawCmd.markerCmd x y st.color

/-- Drawing every feature of a layer in order. -/
def renderLayer (l : Layer) : List DrawCmd :=
  l.fc.features.map (fun f => drawGeometry l.style f.geometry)

/-- Modelled from the spec: the Overlay Renderer of section 4.4. The notebook
overlays layers through plot calls on a shared axis with no CRS check; the
CrsMismatch rejection is present only in the specification (section 9 records
it as a deliberate design choice) and is modelled here: layers are drawn
back to front only when every CRS matches the CRS of the first layer, and
otherwise the render call fails with CrsMismatch. -/
def renderer (layers : List Layer) : Except PipelineError (List DrawCmd) :=
  match layers with
  | [] => Except.ok []
  | l0 :: rest =>
    if rest.all (fun l => decide (l.fc.crs = l0.fc.crs)) then
      Except.ok (((l0 :: rest).map renderLayer).flatten)
    else Except.error PipelineError.crsMismatch

/-- C1: whenever some layer of a render call carries a CRS identifier
different from the CRS of the first layer, the Renderer fails with
CrsMismatch and produces no image, so nothing is silently reprojected. -/
theorem renderer_crs_mismatch (l0 : Layer) (rest : List Layer)
    (h : ∃ l, l ∈ rest ∧ l.fc.crs ≠ l0.fc.crs) :
    renderer (l0 :: rest) = Except.error PipelineError.crsMismatch ∧
    ∀ img, renderer (l0 :: rest) ≠ Except.ok img := by
  rcases h with ⟨l, hl, hne⟩
  have hall : rest.all (fun l => decide (l.fc.crs = l0.fc.crs)) = false := by
    apply Bool.eq_false_iff.mpr
    intro hall
    rw [List.all_eq_true] at hall
    exact hne (of_decide_eq_true (hall l hl))
  have hr : renderer (l0 :: rest) = Except.error PipelineError.crsMismatch := by
    simp [renderer, hall]
  refine ⟨hr, ?_⟩
  intro img hok
  rw [hr] at hok
  exact Except.noConfusion hok

/-- C1 witness: two concrete one-point layers with differing CRS identifiers
make the Renderer fail with CrsMismatch. -/
theorem renderer_crs_mismatch_witness :
    renderer
        [{ fc := { features := [{ geometry := Geometry.point 0 0, attrs := [] }],
                   crs := some "epsg:4326" },
           style := { color := "white", edgecolor := "black" } },
         { fc := { features := [{ geometry := Geometry.point 1 1, attrs := [] }],
                   crs := some "epsg:3857" },
           style := { color := "red", edgecolor := "red" } }]
      = Except.error PipelineError.crsMismatch :=
  (renderer_crs_mismatch
      { fc := { features := [{ geometry := Geometry.point 0 0, attrs := [] }],
                crs := some "epsg:4326" },
        style := { color := "white", edgecolor := "black" } }
      [{ fc := { features := [{ geometry := Geometry.point 1 1, attrs := [] }],
                 crs := some "epsg:3857" },
         style := { color := "red", edgecolor := "red" } }]
      ⟨{ fc := { features := [{ geometry := Geometry.point 1 1, attrs := [] }],
                 crs := some "epsg:3857" },
         style := { color := "red", edgecolor := "red" } },
        by decide, by decide⟩).1

/-- The notebook global environment: named bindings of feature collections,
as the variables gdf_reg and ncr rebound across cells. -/
abbrev Env := List (String × FeatureCollection)

/-- Reading a notebook variable. -/
def envGet (e : Env) (k : String) : Option FeatureCollection :=
  match e with
  | [] => none
  | (k2, v) :: rest => if k2 = k then some v else envGet rest k

/-- Binding a notebook variable, replacing any previous binding of the same
name and leaving every other binding in place. -/
def envSet (e : Env) (k : String) (v : FeatureCollection) : Env :=
  match e with
  | [] => [(k, v)]
  | (k2, v2) :: rest => if k2 = k then (k, v) :: rest else (k2, v2) :: envSet rest k v

/-- The notebook filter cell as a step on the environment: read the source
variable, bind the filtered collection to the destination variable, and
leave the environment unchanged when the source variable is absent. -/
def filterStep (src dst : String) (P : Feature → Bool) (e : Env) : Env :=
  match envGet e src with
  | some F => envSet e dst (filterFC F P)
  | none => e

/-- Binding a variable leaves every other variable unchanged. -/
theorem envGet_envSet_ne (e : Env) (k k2 : String) (v : FeatureCollection)
    (h : k ≠ k2) : envGet (envSet e k v) k2 = envGet e k2 := by
  induction e with
  | nil =>
    simp [envSet, envGet, h]
  | cons p rest ih =>
    obtain ⟨k3, v3⟩ := p
    by_cases hk : k3 = k
    · subst hk
      simp [envSet, envGet, h]
    · simp [envSet, envGet, hk]
      by_cases hk2 : k3 = k2
      · simp [hk2, envGet]
      · simp [hk2, envGet, ih]

/-- Binding a variable makes that variable hold the bound value. -/
theorem envGet_envSet_eq (e : Env) (k : String) (v : FeatureCollection) :
    envGet (envSet e k v) k = some v := by
  induction e with
  | nil =>
    simp [envSet, envGet]
  | cons p rest ih =>
    obtain ⟨k3, v3⟩ := p
    by_cases hk : k3 = k
    · subst hk
      simp [envSet, envGet]
    · simp [envSet, envGet, hk, ih]

/-- C8: the notebook filter step binds the filtered collection to a new
variable and leaves the source collection observationally unchanged: after
the step, the source variable still holds the same value, with the same
features in the same order and the same CRS, and the destination variable
holds the freshly built filtered collection. -/
theorem filterStep_frame (src dst : String) (P : Feature → Bool) (e : Env)
    (F : FeatureCollection) (hne : src ≠ dst) (hF : envGet e src = some F) :
    envGet (filterStep src dst P e) src = some F ∧
    (envGet (filterStep src dst P e) src).map FeatureCollection.features
      = some F.features ∧
    (envGet (filterStep src dst P e) src).map FeatureCollection.crs
      = some F.crs ∧
    envGet (filterStep src dst P e) dst = some (filterFC F P) := by
  have h1 : filterStep src dst P e = envSet e dst (filterFC F P) := by
    unfold filterStep
    rw [hF]
  have h2 : envGet (filterStep src dst P e) src = some F := by
    rw [h1, envGet_envSet_ne e dst src _ (Ne.symm hne)]
    exact hF
  refine ⟨h2, ?_, ?_, ?_⟩
  · rw [h2]
    rfl
  · rw [h2]
    rfl
  · rw [h1]
    exact envGet_envSet_eq e dst (filterFC F P)

/-- C8 witness: the filter step run on a concrete one-variable environment
leaves the source collection bound and unchanged. -/
theorem filterStep_frame_witness :
    envGet
        (filterStep "gdf_reg" "ncr" ncrPred
          [("gdf_reg",
            { features := [{ geometry := Geometry.point 0 0,
                             attrs := [("ADM1_EN", Scalar.str ncrLiteral)] }],
              crs := some "epsg:4326" })])
        "gdf_reg"
      = some
          { features := [{ geometry := Geometry.point 0 0,
                           attrs := [("ADM1_EN", Scalar.str ncrLiteral)] }],
            crs := some "epsg:4326" } :=
  (filterStep_frame "gdf_reg" "ncr" ncrPred
      [("gdf_reg",
        { features := [{ geometry := Geometry.point 0 0,
                         attrs := [("ADM1_EN", Scalar.str ncrLiteral)] }],
          crs := some "epsg:4326" })]
      { features := [{ geometry := Geometry.point 0 0,
                       attrs := [("ADM1_EN", Scalar.str ncrLiteral)] }],
        crs := some "epsg:4326" }
      (by decide) (by decide)).1

end GeoPipeline
